import Mathlib

/-!
Verification of the Header Inspector of ddd-reader-desktop
(src/app/ddd-reader/tools/simple_dump.py), as a shallow embedding.

The filesystem is modelled as a function from paths to either the file's
byte content (each byte a Nat below 256) or an exception message: inside
the try block, `os.path.getsize` and the binary read succeed together on a
stable, readable file, and any stat/open/read failure raises an exception
caught by the single `except Exception` handler.  A Python dict literal is
modelled as an ordered association list of keys and JSON values, matching
the literal's key order.
-/

set_option maxRecDepth 4096

namespace DDDReader

/-- JSON values appearing in the tool's output: strings and integers. -/
inductive JsonValue where
  | str : String → JsonValue
  | nat : Nat → JsonValue
deriving DecidableEq

/-- A Python dict as serialized by json.dumps: ordered key-value pairs. -/
abbrev Record := List (String × JsonValue)

/-- The filesystem seen by parse_ddd: a path maps to the file's bytes, or
to the message of the exception raised while sizing/opening/reading it. -/
abbrev FS := String → Except String (List Nat)

/-- Lowercase hexadecimal digit for a value below 16, as produced by
Python's bytes.hex (digits 0-9 then letters a-f). -/
def hexDigit (n : Nat) : Char :=
  if n < 10 then Char.ofNat (48 + n) else Char.ofNat (87 + n)

/-- Character list of bytes.hex: two lowercase hex digits per byte,
high nibble first. -/
def bytesHexChars : List Nat → List Char
  | [] => []
  | b :: rest => hexDigit (b / 16) :: hexDigit (b % 16) :: bytesHexChars rest

/-- Embedding of header.hex(): lowercase hex string of a byte list. -/
def bytesHex (bs : List Nat) : String :=
  String.mk (bytesHexChars bs)

/-- Characters of the path component after the last slash: the
accumulator is reset at every slash and collects other characters. -/
def basenameAux : List Char → List Char → List Char
  | acc, [] => acc
  | acc, c :: rest =>
      if c = Char.ofNat 47 then basenameAux [] rest else basenameAux (acc ++ [c]) rest

/-- Embedding of os.path.basename for POSIX paths: the component after
the last slash (empty when the path ends in a slash). -/
def basename (p : String) : String :=
  String.mk (basenameAux [] p.toList)

/-- Embedding of parse_ddd from simple_dump.py.  On a readable file it
returns the six-key dict literal of the source (title, filename, format,
fileSize, headerHex, message); `f.read(16)` is the first 16 bytes, and
`os.path.getsize` is the byte length.  On any exception it returns the
single-key dict with the exception's text. -/
def parse_ddd (fs : FS) (filepath : String) : Record :=
  match fs filepath with
  | .error e => [("error", JsonValue.str e)]
  | .ok bytes =>
      [("title", JsonValue.str "Report from Python Parser"),
       ("filename", JsonValue.str (basename filepath)),
       ("format", JsonValue.str "DDD"),
       ("fileSize", JsonValue.nat bytes.length),
       ("headerHex", JsonValue.str (bytesHex (bytes.take 16))),
       ("message", JsonValue.str "This file was processed by the Python fallback parser.")]

/-- Escape of one character inside a JSON string, as json.dumps emits it
for the ASCII text this tool produces. -/
def jsonEscapeChar (c : Char) : String :=
  if c = Char.ofNat 34 then "\\\""
  else if c = Char.ofNat 92 then "\\\\"
  else if c = Char.ofNat 10 then "\\n"
  else if c = Char.ofNat 9 then "\\t"
  else if c = Char.ofNat 13 then "\\r"
  else if c.toNat < 32 then
    "\\u00" ++ String.mk [hexDigit (c.toNat / 16), hexDigit (c.toNat % 16)]
  else String.mk [c]

/-- JSON string literal with surrounding quotes. -/
def jsonStr (s : String) : String :=
  "\"" ++ String.join (s.toList.map jsonEscapeChar) ++ "\""

/-- Serialization of one JSON value. -/
def jsonVal : JsonValue → String
  | .str s => jsonStr s
  | .nat n => toString n

/-- json.dumps with default separators: one line, items joined by a comma
and a space, a colon and a space between key and value. -/
def dumpsCompact (r : Record) : String :=
  "\x7b" ++
    String.intercalate ", " (r.map fun kv => jsonStr kv.1 ++ ": " ++ jsonVal kv.2) ++
  "\x7d"

/-- json.dumps with indent=2: each pair on its own line indented by two
spaces, items separated by a bare comma before the newline. -/
def dumpsIndent2 (r : Record) : String :=
  if r.isEmpty then "\x7b\x7d"
  else
    "\x7b\n" ++
      String.intercalate ",\n"
        (r.map fun kv => "  " ++ jsonStr kv.1 ++ ": " ++ jsonVal kv.2) ++
    "\n\x7d"

/-- Observable outcome of one run of the command-line tool: everything
printed to stdout, and the process exit code. -/
structure CliResult where
  stdout : String
  exitCode : Nat
deriving DecidableEq

/-- Embedding of the `__main__` block: argv includes the script name at
position 0.  With fewer than two entries the tool prints the compact
"No file provided" error object and exits 1; otherwise it prints
parse_ddd of argv[1] pretty-printed with indent 2 and exits 0 (print
appends a newline). -/
def toolMain (fs : FS) (argv : List String) : CliResult :=
  if argv.length < 2 then
    { stdout := dumpsCompact [("error", JsonValue.str "No file provided")] ++ "\n",
      exitCode := 1 }
  else
    { stdout := dumpsIndent2 (parse_ddd fs (argv.getD 1 "")) ++ "\n",
      exitCode := 0 }

/-- Lookup of a key in a record, mirroring access to a Python dict built
from a literal without duplicate keys. -/
def getField : Record → String → Option JsonValue
  | [], _ => none
  | (k, v) :: rest, key => if k = key then some v else getField rest key

/-- The keys of a record, in order. -/
def keys (r : Record) : List String :=
  r.map Prod.fst

/-- Value of one lowercase hexadecimal character (the standard decoder,
used to state the round-trip property of headerHex). -/
def hexDigitVal (c : Char) : Option Nat :=
  if 48 ≤ c.toNat ∧ c.toNat ≤ 57 then some (c.toNat - 48)
  else if 97 ≤ c.toNat ∧ c.toNat ≤ 102 then some (c.toNat - 87)
  else none

/-- Decoder of a lowercase hexadecimal character list back to bytes:
pairs of digits, high nibble first; fails on an odd length or a
non-hex-digit character. -/
def hexDecodeList : List Char → Option (List Nat)
  | [] => some []
  | [_] => none
  | c1 :: c2 :: rest =>
      match hexDigitVal c1, hexDigitVal c2, hexDecodeList rest with
      | some h, some l, some tail => some ((16 * h + l) :: tail)
      | _, _, _ => none

/-- Decoder of a hexadecimal string back to bytes. -/
def hexDecode (s : String) : Option (List Nat) :=
  hexDecodeList s.toList

/-- A sample filesystem holding one readable four-byte file, every other
path failing with an exception message. -/
def sampleFS : FS := fun p =>
  if p = "dir/sample.ddd" then .ok [0, 1, 2, 3] else .error "not found"

lemma parse_ddd_ok {fs : FS} {p : String} {bs : List Nat} (h : fs p = .ok bs) :
    parse_ddd fs p =
      [("title", JsonValue.str "Report from Python Parser"),
       ("filename", JsonValue.str (basename p)),
       ("format", JsonValue.str "DDD"),
       ("fileSize", JsonValue.nat bs.length),
       ("headerHex", JsonValue.str (bytesHex (bs.take 16))),
       ("message", JsonValue.str "This file was processed by the Python fallback parser.")] := by
  unfold parse_ddd
  rw [h]

lemma parse_ddd_err {fs : FS} {p : String} {e : String} (h : fs p = .error e) :
    parse_ddd fs p = [("error", JsonValue.str e)] := by
  unfold parse_ddd
  rw [h]

lemma hexDigitVal_hexDigit {n : Nat} (h : n < 16) :
    hexDigitVal (hexDigit n) = some n := by
  interval_cases n <;> rfl

lemma hexDigit_lower {n : Nat} (h : n < 16) :
    (hexDigit n).isDigit ∨ (97 ≤ (hexDigit n).toNat ∧ (hexDigit n).toNat ≤ 102) := by
  interval_cases n <;> decide

lemma bytesHexChars_length (bs : List Nat) :
    (bytesHexChars bs).length = 2 * bs.length := by
  induction bs with
  | nil => rfl
  | cons b rest ih => simp [bytesHexChars, ih]; omega

lemma hexDecodeList_bytesHexChars {bs : List Nat} (h : ∀ b ∈ bs, b < 256) :
    hexDecodeList (bytesHexChars bs) = some bs := by
  induction bs with
  | nil => rfl
  | cons b rest ih =>
      have hb : b < 256 := h b (List.mem_cons_self b rest)
      have hdiv : b / 16 < 16 := by omega
      have hmod : b % 16 < 16 := by omega
      have ihr : hexDecodeList (bytesHexChars rest) = some rest :=
        ih (fun x hx => h x (List.mem_cons_of_mem b hx))
      simp [bytesHexChars, hexDecodeList, hexDigitVal_hexDigit hdiv,
            hexDigitVal_hexDigit hmod, ihr]
      omega

lemma bytesHexChars_lower {bs : List Nat} (h : ∀ b ∈ bs, b < 256) :
    ∀ c ∈ bytesHexChars bs, c.isDigit ∨ (97 ≤ c.toNat ∧ c.toNat ≤ 102) := by
  induction bs with
  | nil => intro c hc; simp [bytesHexChars] at hc
  | cons b rest ih =>
      intro c hc
      have hb : b < 256 := h b (List.mem_cons_self b rest)
      simp only [bytesHexChars, List.mem_cons] at hc
      rcases hc with hc | hc | hc
      · subst hc; exact hexDigit_lower (by omega)
      · subst hc; exact hexDigit_lower (by omega)
      · exact ih (fun x hx => h x (List.mem_cons_of_mem b hx)) c hc

lemma toolMain_cons_cons (fs : FS) (prog a : String) (rest : List String) :
    toolMain fs (prog :: a :: rest) =
      { stdout := dumpsIndent2 (parse_ddd fs a) ++ "\n", exitCode := 0 } := by
  unfold toolMain
  rw [if_neg]
  · rfl
  · simp

/-- A filesystem holding the same four bytes under a different directory,
failing elsewhere with a different message. -/
def otherDirFS : FS := fun p =>
  if p = "other/sample.ddd" then .ok [0, 1, 2, 3] else .error "denied"

/-- A filesystem with an 18-byte file whose 18th byte is 1. -/
def longFileA : FS := fun p =>
  if p = "a/data.ddd" then .ok (List.replicate 17 0 ++ [1]) else .error "ea"

/-- A filesystem with an 18-byte file whose 18th byte is 2: it agrees
with longFileA on basename, size and the first 16 bytes only. -/
def longFileB : FS := fun p =>
  if p = "b/data.ddd" then .ok (List.replicate 17 0 ++ [2]) else .error "eb"

/-- A filesystem agreeing with sampleFS at the sample path but differing
everywhere else. -/
def agreeingFS : FS := fun p =>
  if p = "dir/sample.ddd" then .ok [0, 1, 2, 3] else .error "other cause"

/-- The key sequence of every success-shaped result of parse_ddd. -/
def successKeys : List String :=
  ["title", "filename", "format", "fileSize", "headerHex", "message"]

/-- C1: for every readable file, the headerHex field of the result is a
string of length 2 * min(16, fileSize) over the lowercase hexadecimal
alphabet, and decoding it yields exactly the first min(16, fileSize)
bytes of the file (empty file gives the empty string). -/
theorem C1_headerHex_roundtrip (fs : FS) (p : String) (bs : List Nat)
    (hread : fs p = .ok bs) (hbytes : ∀ b ∈ bs, b < 256) :
    ∃ h : String,
      getField (parse_ddd fs p) "headerHex" = some (JsonValue.str h) ∧
      h.length = 2 * min 16 bs.length ∧
      hexDecode h = some (bs.take 16) ∧
      ∀ c ∈ h.toList, c.isDigit ∨ (97 ≤ c.toNat ∧ c.toNat ≤ 102) := by
  refine ⟨bytesHex (bs.take 16), ?_, ?_, ?_, ?_⟩
  · rw [parse_ddd_ok hread]; rfl
  · show (bytesHexChars (bs.take 16)).length = _
    rw [bytesHexChars_length, List.length_take]
  · exact hexDecodeList_bytesHexChars
      (fun b hb => hbytes b (List.take_subset 16 bs hb))
  · exact bytesHexChars_lower
      (fun b hb => hbytes b (List.take_subset 16 bs hb))

/-- C1 witness: the round-trip property evaluated on the concrete sample
file holding bytes 00 01 02 03. -/
theorem C1_headerHex_roundtrip_witness :
    (sampleFS "dir/sample.ddd" = .ok [0, 1, 2, 3] ∧
      ∀ b ∈ ([0, 1, 2, 3] : List Nat), b < 256) ∧
    ∃ h : String,
      getField (parse_ddd sampleFS "dir/sample.ddd") "headerHex" =
        some (JsonValue.str h) ∧
      h.length = 2 * min 16 ([0, 1, 2, 3] : List Nat).length ∧
      hexDecode h = some (([0, 1, 2, 3] : List Nat).take 16) ∧
      ∀ c ∈ h.toList, c.isDigit ∨ (97 ≤ c.toNat ∧ c.toNat ≤ 102) :=
  ⟨⟨rfl, by decide⟩,
    C1_headerHex_roundtrip sampleFS "dir/sample.ddd" [0, 1, 2, 3] rfl (by decide)⟩

/-- C2: for every readable file, the fileSize field equals the byte
length of the file (a Nat, hence non-negative). -/
theorem C2_fileSize (fs : FS) (p : String) (bs : List Nat)
    (hread : fs p = .ok bs) :
    getField (parse_ddd fs p) "fileSize" = some (JsonValue.nat bs.length) := by
  rw [parse_ddd_ok hread]; rfl

/-- C2 witness: the fileSize field of the four-byte sample file is 4. -/
theorem C2_fileSize_witness :
    sampleFS "dir/sample.ddd" = .ok [0, 1, 2, 3] ∧
    getField (parse_ddd sampleFS "dir/sample.ddd") "fileSize" =
      some (JsonValue.nat ([0, 1, 2, 3] : List Nat).length) :=
  ⟨rfl, C2_fileSize sampleFS "dir/sample.ddd" [0, 1, 2, 3] rfl⟩

/-- C3: whenever sizing/opening/reading a path fails, parse_ddd returns
the failure-shaped record carrying the exception text in its error field
and nothing else; no exception escapes (parse_ddd is total), and this
holds for every path. -/
theorem C3_error_shape (fs : FS) (p : String) (e : String)
    (hfail : fs p = .error e) :
    parse_ddd fs p = [("error", JsonValue.str e)] ∧
    getField (parse_ddd fs p) "error" = some (JsonValue.str e) ∧
    keys (parse_ddd fs p) = ["error"] := by
  refine ⟨parse_ddd_err hfail, ?_, ?_⟩ <;> rw [parse_ddd_err hfail] <;> rfl

/-- C3 witness: inspecting a nonexistent path of the sample filesystem
yields the error-only record. -/
theorem C3_error_shape_witness :
    sampleFS "no/such/file" = .error "not found" ∧
    parse_ddd sampleFS "no/such/file" = [("error", JsonValue.str "not found")] ∧
    getField (parse_ddd sampleFS "no/such/file") "error" =
      some (JsonValue.str "not found") ∧
    keys (parse_ddd sampleFS "no/such/file") = ["error"] :=
  ⟨rfl, C3_error_shape sampleFS "no/such/file" "not found" rfl⟩

/-- C4 counterexample: on the readable sample file the result has six
fields, so it is neither five-fields-without-error nor error-only; the
claim's dichotomy as stated fails. -/
theorem C4_five_fields_counterexample :
    ¬ (((keys (parse_ddd sampleFS "dir/sample.ddd")).length = 5 ∧
        "error" ∉ keys (parse_ddd sampleFS "dir/sample.ddd")) ∨
       keys (parse_ddd sampleFS "dir/sample.ddd") = ["error"]) := by
  rw [parse_ddd_ok (show sampleFS "dir/sample.ddd" = .ok [0, 1, 2, 3] from rfl)]
  decide

/-- C4 amended: every result of parse_ddd is exactly one of two mutually
exclusive shapes — success-shaped with the six fields title, filename,
format, fileSize, headerHex, message and no error field, or
failure-shaped with the error field only. -/
theorem C4_two_shapes (fs : FS) (p : String) :
    (keys (parse_ddd fs p) = successKeys ∧
      "error" ∉ keys (parse_ddd fs p) ∧
      keys (parse_ddd fs p) ≠ ["error"]) ∨
    (keys (parse_ddd fs p) = ["error"] ∧
      keys (parse_ddd fs p) ≠ successKeys) := by
  cases h : fs p with
  | error e =>
      right
      have hk : keys (parse_ddd fs p) = ["error"] := by
        rw [parse_ddd_err h]; rfl
      rw [hk]
      exact ⟨rfl, by decide⟩
  | ok bs =>
      left
      have hk : keys (parse_ddd fs p) = successKeys := by
        rw [parse_ddd_ok h]; rfl
      rw [hk]
      exact ⟨rfl, by decide, by decide⟩

/-- C5: parse_ddd never depends on more than the first 16 bytes of
content: two readable files agreeing on path basename, size and first 16
bytes yield identical results, and the format field is the constant
"DDD" on every success. -/
theorem C5_first16_noninterference (fs1 fs2 : FS) (p1 p2 : String)
    (b1 b2 : List Nat)
    (h1 : fs1 p1 = .ok b1) (h2 : fs2 p2 = .ok b2)
    (hname : basename p1 = basename p2)
    (hsize : b1.length = b2.length)
    (hhead : b1.take 16 = b2.take 16) :
    parse_ddd fs1 p1 = parse_ddd fs2 p2 ∧
    getField (parse_ddd fs1 p1) "format" = some (JsonValue.str "DDD") := by
  constructor
  · rw [parse_ddd_ok h1, parse_ddd_ok h2, hname, hsize, hhead]
  · rw [parse_ddd_ok h1]; rfl

/-- C5 witness: two 18-byte files differing only in their 18th byte,
under different directories, yield identical results. -/
theorem C5_first16_noninterference_witness :
    (longFileA "a/data.ddd" = .ok (List.replicate 17 0 ++ [1]) ∧
      longFileB "b/data.ddd" = .ok (List.replicate 17 0 ++ [2]) ∧
      basename "a/data.ddd" = basename "b/data.ddd" ∧
      (List.replicate 17 0 ++ [1]).length = (List.replicate 17 0 ++ [2]).length ∧
      (List.replicate 17 0 ++ ([1] : List Nat)).take 16 =
        (List.replicate 17 0 ++ [2]).take 16) ∧
    parse_ddd longFileA "a/data.ddd" = parse_ddd longFileB "b/data.ddd" ∧
    getField (parse_ddd longFileA "a/data.ddd") "format" =
      some (JsonValue.str "DDD") :=
  ⟨⟨rfl, rfl, rfl, rfl, rfl⟩,
    C5_first16_noninterference longFileA longFileB "a/data.ddd" "b/data.ddd"
      (List.replicate 17 0 ++ [1]) (List.replicate 17 0 ++ [2])
      rfl rfl rfl rfl rfl⟩

/-- C6: with fewer than two argv entries (zero user arguments) the tool
exits with code 1 and prints the compact failure-shaped JSON object whose
error message is "No file provided". -/
theorem C6_no_args (fs : FS) (argv : List String) (h : argv.length < 2) :
    toolMain fs argv =
      { stdout := dumpsCompact [("error", JsonValue.str "No file provided")] ++ "\n",
        exitCode := 1 } ∧
    dumpsCompact [("error", JsonValue.str "No file provided")] =
      "\x7b\"error\": \"No file provided\"\x7d" := by
  constructor
  · unfold toolMain; rw [if_pos h]
  · rfl

/-- C6 witness: running the tool with only the script name in argv. -/
theorem C6_no_args_witness :
    ([("simple_dump.py" : String)].length < 2) ∧
    toolMain sampleFS ["simple_dump.py"] =
      { stdout := dumpsCompact [("error", JsonValue.str "No file provided")] ++ "\n",
        exitCode := 1 } ∧
    dumpsCompact [("error", JsonValue.str "No file provided")] =
      "\x7b\"error\": \"No file provided\"\x7d" :=
  ⟨by decide, C6_no_args sampleFS ["simple_dump.py"] (by decide)⟩

/-- C7: with at least one user argument the tool exits with code 0 and
prints the InspectionResult serialized by the indent-2 pretty printer;
on the sample file that serialization is the expected two-space indented
JSON text. -/
theorem C7_pretty_output (fs : FS) (prog a : String) (rest : List String) :
    toolMain fs (prog :: a :: rest) =
      { stdout := dumpsIndent2 (parse_ddd fs a) ++ "\n", exitCode := 0 } ∧
    dumpsIndent2 (parse_ddd sampleFS "dir/sample.ddd") =
      "\x7b\n  \"title\": \"Report from Python Parser\",\n  \"filename\": \"sample.ddd\",\n  \"format\": \"DDD\",\n  \"fileSize\": 4,\n  \"headerHex\": \"00010203\",\n  \"message\": \"This file was processed by the Python fallback parser.\"\n\x7d" := by
  exact ⟨toolMain_cons_cons fs prog a rest, rfl⟩

/-- C8: parse_ddd is a pure function of the path and that path's bytes:
two filesystems agreeing at the path give identical results, and the
same invocation repeated gives an identical result. -/
theorem C8_pure_idempotent (fs1 fs2 : FS) (p : String) (h : fs1 p = fs2 p) :
    parse_ddd fs1 p = parse_ddd fs2 p ∧
    parse_ddd fs1 p = parse_ddd fs1 p := by
  constructor
  · unfold parse_ddd; rw [h]
  · rfl

/-- C8 witness: two filesystems agreeing only on the sample path yield
the same result there. -/
theorem C8_pure_idempotent_witness :
    sampleFS "dir/sample.ddd" = agreeingFS "dir/sample.ddd" ∧
    parse_ddd sampleFS "dir/sample.ddd" = parse_ddd agreeingFS "dir/sample.ddd" ∧
    parse_ddd sampleFS "dir/sample.ddd" = parse_ddd sampleFS "dir/sample.ddd" :=
  ⟨rfl, C8_pure_idempotent sampleFS agreeingFS "dir/sample.ddd" rfl⟩

/-- C9: on every success the title field is the constant
"Report from Python Parser" and the message field is the constant
"This file was processed by the Python fallback parser.". -/
theorem C9_constant_texts (fs : FS) (p : String) (bs : List Nat)
    (hread : fs p = .ok bs) :
    getField (parse_ddd fs p) "title" =
      some (JsonValue.str "Report from Python Parser") ∧
    getField (parse_ddd fs p) "message" =
      some (JsonValue.str "This file was processed by the Python fallback parser.") := by
  rw [parse_ddd_ok hread]
  exact ⟨rfl, rfl⟩

/-- C9 witness: the two constant fields on the sample file. -/
theorem C9_constant_texts_witness :
    sampleFS "dir/sample.ddd" = .ok [0, 1, 2, 3] ∧
    getField (parse_ddd sampleFS "dir/sample.ddd") "title" =
      some (JsonValue.str "Report from Python Parser") ∧
    getField (parse_ddd sampleFS "dir/sample.ddd") "message" =
      some (JsonValue.str "This file was processed by the Python fallback parser.") :=
  ⟨rfl, C9_constant_texts sampleFS "dir/sample.ddd" [0, 1, 2, 3] rfl⟩

/-- C10: with two or more user arguments, every argument after the first
is ignored: stdout and exit code depend only on the first one. -/
theorem C10_extra_args_ignored (fs : FS) (prog a : String)
    (rest1 rest2 : List String) :
    toolMain fs (prog :: a :: rest1) = toolMain fs (prog :: a :: rest2) := by
  rw [toolMain_cons_cons, toolMain_cons_cons]

end DDDReader
